import Mathlib

/-!
# Verification of the e-siksha backend account and video services

Shallow embedding of the request handlers in `src/backend/server.js`,
`src/backend/routes/videoRoutes.js` (which contains both the video router
and a second, fuller copy of the account service) and
`src/backend/models/Video.js`, together with proofs about them.

Conventions of the embedding:
* JavaScript strings are Lean `String`s; `String.prototype.toLowerCase`
  and `String.prototype.trim` are embedded as `jsToLower` and `jsTrim`
  below (ASCII case folding and the common whitespace characters).
* `req.body` fields are `Option String`; an absent field is `none` and the
  JavaScript falsiness test `!x` on a string field holds exactly for
  `none` and for the empty string (`falsy`).
* The Mongo user collection is a `List User`; `Date.now` values are `Nat`
  timestamps passed in explicitly.
* The Mongoose schema of the fuller implementation declares
  `lowercase: true, trim: true` on `email`; Mongoose applies these setters
  both to assigned values and (since Mongoose 6, the behaviour of the
  versions this package range pulls in) to query filter values, so the
  embedded lookup `findUserByEmail` normalises the queried key with
  `normEmail` and `vrNewUser` stores the normalised email.
* `save()` is `saveNew` (videoRoutes schema) / `saveNewSrv` (server.js
  schema): it first runs the schema validators of the respective schema
  (`validateVR`: required, fullName minlength 2, email match
  `/^\S+@\S+\.\S+$/`; `validateSrv`: required only), failing with
  `DbError.validationFailed`, and otherwise fails with
  `DbError.duplicateKey` (Mongo error code 11000) when a stored document
  already has the same unique email. The `videoRoutes.js` catch maps the
  validation failure to a 400 with the messages joined by `', '`; the
  `server.js` catch has no `ValidationError` arm and returns its generic
  500.
-/

namespace ESiksha

/-- Embeds `String.prototype.toLowerCase` at the level of one character:
ASCII uppercase letters are shifted to lowercase, everything else is kept. -/
def lowerChar (c : Char) : Char :=
  if 65 ≤ c.toNat ∧ c.toNat ≤ 90 then Char.ofNat (c.toNat + 32) else c

/-- Embeds `String.prototype.toLowerCase` (ASCII fragment). -/
def jsToLower (s : String) : String :=
  ⟨s.data.map lowerChar⟩

/-- The whitespace characters removed by `String.prototype.trim`
(common ASCII fragment). -/
def isWS (c : Char) : Bool :=
  c == ' ' || c == '\t' || c == '\n' || c == '\r' || c == '\x0b' || c == '\x0c'

/-- Leading-whitespace removal, on the character list. -/
def trimLeftL (l : List Char) : List Char :=
  l.dropWhile isWS

/-- Trailing-whitespace removal, on the character list. -/
def trimRightL (l : List Char) : List Char :=
  (l.reverse.dropWhile isWS).reverse

/-- Embeds `String.prototype.trim`: removes leading and trailing
whitespace. -/
def jsTrim (s : String) : String :=
  ⟨trimRightL (trimLeftL s.data)⟩

/-- The Mongoose schema setters on the `email` path of the user schema in
`videoRoutes.js` (`lowercase: true, trim: true`), applied to assigned
values and to query filter values. -/
def normEmail (e : String) : String :=
  jsToLower (jsTrim e)

/-- A document of the `User` collection (`userSchema` in the source;
`lastLogin` is optional there and absent from the `server.js` schema, so
it is an `Option`). -/
structure User where
  id : Nat
  fullName : String
  email : String
  password : String
  createdAt : Nat
  lastLogin : Option Nat
  deriving DecidableEq, Repr

/-- `User.findOne({ email: key })` against the schema of `videoRoutes.js`:
the schema setters normalise the queried key, stored values are compared
as stored. -/
def findUserByEmail (s : List User) (key : String) : Option User :=
  s.find? (fun u => u.email == normEmail key)

/-- `User.findOne({ email: key })` against the plain schema of
`server.js` (no setters): raw comparison. -/
def findUserByEmailRaw (s : List User) (key : String) : Option User :=
  s.find? (fun u => u.email == key)

/-- Errors a `save()` can surface to the handlers: a Mongoose validation
failure (`error.name === 'ValidationError'`, carrying one message per
failing path) or the unique-index duplicate-key error
(`error.code === 11000`). -/
inductive DbError where
  | validationFailed (messages : List String)
  | duplicateKey
  deriving DecidableEq, Repr

/-- The test of the schema regex `/^\S+@\S+\.\S+$/` on the `email` path:
the whole string is whitespace-free and splits as one-or-more characters,
an `@`, one-or-more characters, a `.`, one-or-more characters. -/
def emailShape (s : String) : Bool :=
  s.data.all (fun c => !isWS c) &&
  (List.range s.data.length).any (fun i =>
    decide (1 ≤ i) && (s.data.getD i ' ' == '@') &&
    (List.range s.data.length).any (fun j =>
      decide (i + 2 ≤ j) && decide (j + 2 ≤ s.data.length) &&
      (s.data.getD j ' ' == '.')))

/-- Mongoose validation of a document against the `videoRoutes.js` user
schema, run by every `save()` after the setters: per path the `required`
check first, then `minlength` / `match`, keeping the first failing
validator's message per path, in schema path order. -/
def validateVR (u : User) : List String :=
  (if u.fullName = "" then ["Full name is required"]
   else if u.fullName.length < 2 then ["Name must be at least 2 characters"]
   else []) ++
  (if u.email = "" then ["Email is required"]
   else if !emailShape u.email then ["Please enter a valid email"]
   else []) ++
  (if u.password = "" then ["Password is required"]
   else if u.password.length < 6 then ["Password must be at least 6 characters"]
   else [])

/-- Mongoose validation against the plain `server.js` user schema: only
`required: true` on each path (Mongoose default messages). -/
def validateSrv (u : User) : List String :=
  (if u.fullName = "" then ["Path `fullName` is required."] else []) ++
  (if u.email = "" then ["Path `email` is required."] else []) ++
  (if u.password = "" then ["Path `password` is required."] else [])

/-- `newUser.save()` in `videoRoutes.js`: runs the schema validators,
then fails with the duplicate-key error when some stored document
already has the same unique email, otherwise appends the document. -/
def saveNew (s : List User) (u : User) : Except DbError (List User) :=
  if validateVR u ≠ [] then .error (.validationFailed (validateVR u))
  else if s.any (fun v => v.email == u.email) then .error .duplicateKey
  else .ok (s ++ [u])

/-- `newUser.save()` in `server.js`: same shape, against the
required-only schema. -/
def saveNewSrv (s : List User) (u : User) : Except DbError (List User) :=
  if validateSrv u ≠ [] then .error (.validationFailed (validateSrv u))
  else if s.any (fun v => v.email == u.email) then .error .duplicateKey
  else .ok (s ++ [u])

/-- The body of a `POST /api/register` request. -/
structure RegisterRequest where
  fullName : Option String
  email : Option String
  password : Option String
  confirmPassword : Option String
  deriving DecidableEq, Repr

/-- The body of a `POST /api/login` request. -/
structure LoginRequest where
  email : Option String
  password : Option String
  deriving DecidableEq, Repr

/-- JavaScript falsiness of a possibly absent string field (`!x`):
absent (`undefined`) or the empty string. -/
def falsy : Option String → Bool
  | none => true
  | some s => s == ""

/-- The JSON `user` views the handlers return, as key/value pairs in
order of appearance. -/
abbrev View := List (String × String)

/-- Outcome of a registration request, as the handlers classify it.
`serverError` is the generic catch-all branch of `server.js`, whose
catch has no `ValidationError` arm. -/
inductive RegOutcome where
  | validationError (message : String)
  | conflictError (message : String)
  | serverError (message : String)
  | created (view : View)
  deriving DecidableEq, Repr

/-- The HTTP status each registration outcome is sent with
(`res.status(400)`, `res.status(400)`, `res.status(500)`,
`res.status(201)`). -/
def regStatus : RegOutcome → Nat
  | .validationError _ => 400
  | .conflictError _ => 400
  | .serverError _ => 500
  | .created _ => 201

/-- Outcome of a login request, as the handlers classify it. -/
inductive LoginOutcome where
  | validationError (message : String)
  | authError (message : String)
  | success (view : View)
  deriving DecidableEq, Repr

/-- The HTTP status each login outcome is sent with
(`res.status(400)`, `res.status(401)`, implicit 200). -/
def loginStatus : LoginOutcome → Nat
  | .validationError _ => 400
  | .authError _ => 401
  | .success _ => 200

/-- The kind of a registration outcome, forgetting message and view
(0 validation failure, 1 conflict, 2 created, 3 generic server error). -/
def regKind : RegOutcome → Nat
  | .validationError _ => 0
  | .conflictError _ => 1
  | .created _ => 2
  | .serverError _ => 3

/-- The kind of a login outcome, forgetting message and view
(0 validation failure, 1 authentication failure, 2 success). -/
def loginKind : LoginOutcome → Nat
  | .validationError _ => 0
  | .authError _ => 1
  | .success _ => 2

/-- The document built by `new User({...})` in the `videoRoutes.js`
registration handler: `fullName` trimmed by the handler, `email`
lowercased and trimmed by the handler and then normalised again by the
schema setters, `createdAt` defaulted to the current time, no
`lastLogin`. -/
def vrNewUser (fullName email password : String) (newId now : Nat) : User :=
  { id := newId
    fullName := jsTrim fullName
    email := normEmail (jsTrim (jsToLower email))
    password := password
    createdAt := now
    lastLogin := none }

/-- The `POST /api/register` handler of `videoRoutes.js`, with the store
snapshot seen by the pre-insertion existence check (`sCheck`) separated
from the snapshot at insertion time (`sInsert`), since the two `await`
points may observe different states under concurrency. Returns the
outcome and the resulting store. -/
def registerVR2 (sCheck sInsert : List User) (req : RegisterRequest)
    (newId now : Nat) : RegOutcome × List User :=
  if falsy req.fullName || falsy req.email || falsy req.password ||
      falsy req.confirmPassword then
    (.validationError "All fields are required", sInsert)
  else if req.password.getD "" ≠ req.confirmPassword.getD "" then
    (.validationError "Passwords do not match", sInsert)
  else if (req.password.getD "").length < 6 then
    (.validationError "Password must be at least 6 characters", sInsert)
  else
    match findUserByEmail sCheck (jsToLower (req.email.getD "")) with
    | some _ => (.conflictError "User already exists with this email", sInsert)
    | none =>
      match saveNew sInsert (vrNewUser (req.fullName.getD "") (req.email.getD "")
          (req.password.getD "") newId now) with
      | .error .duplicateKey =>
        (.conflictError "Email already registered", sInsert)
      | .error (.validationFailed msgs) =>
        (.validationError (String.intercalate ", " msgs), sInsert)
      | .ok s' =>
        (.created [("id", toString newId),
                   ("fullName", jsTrim (req.fullName.getD "")),
                   ("email", normEmail (jsTrim (jsToLower (req.email.getD "")))),
                   ("createdAt", toString now)], s')

/-- The `POST /api/register` handler of `videoRoutes.js` run sequentially
(both `await` points see the same store). -/
def registerVR (s : List User) (req : RegisterRequest) (newId now : Nat) :
    RegOutcome × List User :=
  registerVR2 s s req newId now

/-- The document built by `new User({...})` in the `server.js`
registration handler: all fields stored exactly as supplied (its schema
declares no setters and no `lastLogin` path). -/
def srvNewUser (fullName email password : String) (newId now : Nat) : User :=
  { id := newId
    fullName := fullName
    email := email
    password := password
    createdAt := now
    lastLogin := none }

/-- The `POST /api/register` handler of `server.js`: same validation, but
the lookup and the stored document use the raw `fullName` and `email`
(its schema has no `lowercase`/`trim` setters), and the success view has
no `createdAt`. -/
def registerSrv (s : List User) (req : RegisterRequest) (newId now : Nat) :
    RegOutcome × List User :=
  if falsy req.fullName || falsy req.email || falsy req.password ||
      falsy req.confirmPassword then
    (.validationError "All fields are required", s)
  else if req.password.getD "" ≠ req.confirmPassword.getD "" then
    (.validationError "Passwords do not match", s)
  else if (req.password.getD "").length < 6 then
    (.validationError "Password must be at least 6 characters", s)
  else
    match findUserByEmailRaw s (req.email.getD "") with
    | some _ => (.conflictError "User already exists with this email", s)
    | none =>
      match saveNewSrv s (srvNewUser (req.fullName.getD "") (req.email.getD "")
          (req.password.getD "") newId now) with
      | .error .duplicateKey => (.conflictError "Email already registered", s)
      | .error (.validationFailed _) =>
        (.serverError "Server error during registration", s)
      | .ok s' =>
        (.created [("id", toString newId),
                   ("fullName", req.fullName.getD ""),
                   ("email", req.email.getD "")], s')

/-- The `POST /api/login` handler of `videoRoutes.js`: lookup with the
lowercased email (further normalised by the schema setters), password
compared byte-for-byte, on success `lastLogin` is set to the current time
and the document saved back; the view omits the password. -/
def loginVR (s : List User) (req : LoginRequest) (now : Nat) :
    LoginOutcome × List User :=
  if falsy req.email || falsy req.password then
    (.validationError "Email and password are required", s)
  else
    match findUserByEmail s (jsToLower (req.email.getD "")) with
    | none => (.authError "Invalid email or password", s)
    | some user =>
      if user.password ≠ req.password.getD "" then
        (.authError "Invalid email or password", s)
      else
        (.success [("id", toString user.id),
                   ("fullName", user.fullName),
                   ("email", user.email),
                   ("lastLogin", toString now)],
         s.map (fun v => if v.id == user.id then
           { user with lastLogin := some now } else v))

/-- The `POST /api/login` handler of `server.js`: raw email lookup, no
`lastLogin` update (its schema has no such field), view without
`lastLogin`. -/
def loginSrv (s : List User) (req : LoginRequest) :
    LoginOutcome × List User :=
  if falsy req.email || falsy req.password then
    (.validationError "Email and password are required", s)
  else
    match findUserByEmailRaw s (req.email.getD "") with
    | none => (.authError "Invalid email or password", s)
    | some user =>
      if user.password ≠ req.password.getD "" then
        (.authError "Invalid email or password", s)
      else
        (.success [("id", toString user.id),
                   ("fullName", user.fullName),
                   ("email", user.email)], s)

/-- `getDBStatusText` in `videoRoutes.js`: the switch over
`mongoose.connection.readyState`. The raw state is an `Int` so that
arbitrary out-of-range values are representable. -/
def getDBStatusText (status : Int) : String :=
  if status = 0 then "disconnected"
  else if status = 1 then "connected"
  else if status = 2 then "connecting"
  else if status = 3 then "disconnecting"
  else "unknown"

/-- Result of the database-status gating middleware: either a 503
rejection or passing the request on (`next()`). -/
inductive GateResult where
  | reject503 (message : String)
  | pass
  deriving DecidableEq, Repr

/-- The database-status middleware of `videoRoutes.js`: when
`readyState !== 1`, non-GET requests are rejected with 503; GET requests
always fall through to `next()`. -/
def dbStatusMiddleware (readyState : Int) (method : String) : GateResult :=
  if readyState ≠ 1 then
    if method ≠ "GET" then
      .reject503 "Database temporarily unavailable. Please try again."
    else .pass
  else .pass

/-- A document of the `Video` collection (`models/Video.js`); `id` embeds
the Mongo `_id`. -/
structure Video where
  id : Nat
  title : String
  videoUrl : String
  deriving DecidableEq, Repr

/-- One step of `Video.findOne().sort({ _id: -1 })`: keep whichever of
the accumulator and the next document has the larger `_id`. -/
def pickLater (acc : Option Video) (v : Video) : Option Video :=
  match acc with
  | none => some v
  | some w => if w.id < v.id then some v else some w

/-- `Video.findOne().sort({ _id: -1 })` in the `GET /video` route:
the document with the maximum `_id`, or `none` on an empty collection. -/
def findLatest (s : List Video) : Option Video :=
  s.foldl pickLater none

/-! ## String lemmas: `jsTrim` is idempotent -/

theorem dropWhile_dropWhile (p : Char → Bool) (l : List Char) :
    (l.dropWhile p).dropWhile p = l.dropWhile p := by
  induction l with
  | nil => rfl
  | cons a t ih =>
    by_cases h : p a
    · simp [List.dropWhile_cons, h, ih]
    · simp [List.dropWhile_cons, h]

theorem dropWhile_eq_self_of_prefix (p : Char → Bool) {m m' : List Char}
    (hm : m.dropWhile p = m) (hp : m' <+: m) : m'.dropWhile p = m' := by
  cases m' with
  | nil => rfl
  | cons a t =>
    obtain ⟨r, hr⟩ := hp
    subst hr
    rw [List.cons_append, List.dropWhile_cons] at hm
    by_cases h : p a
    · exfalso
      rw [if_pos h] at hm
      have hlen : ((t ++ r).dropWhile p).length ≤ (t ++ r).length :=
        (List.dropWhile_suffix p).length_le
      have := congrArg List.length hm
      simp [List.length_append] at this hlen
      omega
    · simp [List.dropWhile_cons, h]

theorem trimLeftL_trimLeftL (l : List Char) :
    trimLeftL (trimLeftL l) = trimLeftL l :=
  dropWhile_dropWhile isWS l

theorem trimRightL_trimRightL (l : List Char) :
    trimRightL (trimRightL l) = trimRightL l := by
  unfold trimRightL
  rw [List.reverse_reverse, dropWhile_dropWhile]

theorem trimRightL_isPrefix (l : List Char) : trimRightL l <+: l := by
  have h : l.reverse.dropWhile isWS <:+ l.reverse := List.dropWhile_suffix isWS
  have := List.reverse_prefix.mpr h
  rwa [List.reverse_reverse] at this

theorem trimLeftL_trimRightL (l : List Char) (hl : trimLeftL l = l) :
    trimLeftL (trimRightL l) = trimRightL l :=
  dropWhile_eq_self_of_prefix isWS hl (trimRightL_isPrefix l)

theorem jsTrim_idem (s : String) : jsTrim (jsTrim s) = jsTrim s := by
  unfold jsTrim
  have hL : trimLeftL (trimRightL (trimLeftL s.data)) =
      trimRightL (trimLeftL s.data) :=
    trimLeftL_trimRightL _ (trimLeftL_trimLeftL s.data)
  rw [hL, trimRightL_trimRightL]

theorem normEmail_jsTrim_jsToLower (e : String) :
    normEmail (jsTrim (jsToLower e)) = normEmail (jsToLower e) := by
  unfold normEmail
  rw [jsTrim_idem]

/-- The stored email of `vrNewUser` is exactly the key the existence
lookup of the `videoRoutes.js` handler queries with. -/
theorem vrNewUser_email (f e p : String) (id now : Nat) :
    (vrNewUser f e p id now).email = normEmail (jsToLower e) :=
  normEmail_jsTrim_jsToLower e

/-- The email stored by the `server.js` handler is the raw request
email. -/
theorem srvNewUser_email (f e p : String) (i n : Nat) :
    (srvNewUser f e p i n).email = e := rfl

/-! ## Small helpers about requests and handler runs -/

theorem falsy_some {x : String} (h : x ≠ "") : falsy (some x) = false := by
  simp [falsy, h]

theorem ne_empty_of_six_le_length {p : String} (hp : 6 ≤ p.length) : p ≠ "" := by
  intro h
  rw [h] at hp
  simp at hp

theorem getD_ne_empty_of_not_falsy {o : Option String} (h : ¬ falsy o = true) :
    o.getD "" ≠ "" := by
  cases o with
  | none => exact absurd rfl h
  | some s =>
    simp only [Option.getD_some]
    intro hs
    rw [hs] at h
    exact h rfl

/-- Successful run of the `videoRoutes.js` registration handler: when the
fields pass the handler checks, the built document passes the schema
validators, and the normalised email is not yet stored, the new document
is appended and a 201 view returned. -/
theorem registerVR_success_run (s : List User) (f e p : String) (newId now : Nat)
    (hf : f ≠ "") (he : e ≠ "") (hp : 6 ≤ p.length)
    (hval : validateVR (vrNewUser f e p newId now) = [])
    (hfresh : findUserByEmail s (jsToLower e) = none) :
    registerVR s ⟨some f, some e, some p, some p⟩ newId now =
      (.created [("id", toString newId), ("fullName", jsTrim f),
                 ("email", normEmail (jsTrim (jsToLower e))),
                 ("createdAt", toString now)],
       s ++ [vrNewUser f e p newId now]) := by
  have hpne : p ≠ "" := ne_empty_of_six_le_length hp
  unfold registerVR registerVR2
  rw [if_neg (by simp [falsy_some hf, falsy_some he, falsy_some hpne])]
  rw [if_neg (by simp)]
  rw [if_neg (by simp only [Option.getD_some]; omega)]
  simp only [Option.getD_some]
  simp only [hfresh]
  unfold saveNew
  rw [if_neg (by simp [hval])]
  have hany : s.any (fun v => v.email == (vrNewUser f e p newId now).email) = false := by
    rw [List.any_eq_false]
    intro v hv
    have := List.find?_eq_none.mp hfresh v hv
    rw [vrNewUser_email]
    exact this
  rw [if_neg (by rw [hany]; simp)]

/-- Invariant of the fold implementing `findOne().sort({ _id: -1 })`:
the result comes from the accumulator or the list, and its id dominates
every processed id. -/
theorem foldl_pickLater (s : List Video) :
    ∀ acc w, s.foldl pickLater acc = some w →
      (some w = acc ∨ w ∈ s) ∧ (∀ v ∈ s, v.id ≤ w.id) ∧
      (∀ a, acc = some a → a.id ≤ w.id) := by
  induction s with
  | nil =>
    intro acc w h
    simp only [List.foldl_nil] at h
    refine ⟨Or.inl h.symm, by simp, fun a ha => ?_⟩
    rw [h] at ha
    cases ha
    exact le_refl _
  | cons x t ih =>
    intro acc w h
    simp only [List.foldl_cons] at h
    obtain ⟨h1, h2, h3⟩ := ih (pickLater acc x) w h
    have hx : ∃ b, pickLater acc x = some b ∧ x.id ≤ b.id ∧
        (∀ a, acc = some a → a.id ≤ b.id) := by
      cases acc with
      | none => exact ⟨x, rfl, le_refl _, by simp⟩
      | some a =>
        by_cases hlt : a.id < x.id
        · refine ⟨x, by simp [pickLater, hlt], le_refl _, fun a' ha' => ?_⟩
          cases ha'
          exact le_of_lt hlt
        · refine ⟨a, by simp [pickLater, hlt], by omega, fun a' ha' => ?_⟩
          cases ha'
          exact le_refl _
    obtain ⟨b, hb, hxb, hab⟩ := hx
    refine ⟨?_, ?_, ?_⟩
    · rcases h1 with h1 | h1
      · rw [hb] at h1
        cases h1
        cases acc with
        | none =>
          simp only [pickLater] at hb
          cases hb
          exact Or.inr (List.mem_cons_self _ _)
        | some a =>
          by_cases hlt : a.id < x.id
          · simp only [pickLater, if_pos hlt] at hb
            cases hb
            exact Or.inr (List.mem_cons_self _ _)
          · simp only [pickLater, if_neg hlt] at hb
            cases hb
            exact Or.inl rfl
      · exact Or.inr (List.mem_cons_of_mem _ h1)
    · intro v hv
      rcases List.mem_cons.mp hv with hv | hv
      · subst hv
        exact le_trans hxb (h3 b hb)
      · exact h2 v hv
    · intro a ha
      exact le_trans (hab a ha) (h3 b hb)

/-- The fold never forgets a seeded accumulator: starting from `some`,
the result stays `some`. -/
theorem foldl_pickLater_isSome (t : List Video) :
    ∀ a : Video, (t.foldl pickLater (some a)).isSome := by
  induction t with
  | nil => intro a; rfl
  | cons x r ih =>
    intro a
    simp only [List.foldl_cons, pickLater]
    by_cases hlt : a.id < x.id
    · rw [if_pos hlt]; exact ih x
    · rw [if_neg hlt]; exact ih a

/-! ## The claims -/

/-- Claim C1: for every pair of otherwise-valid registration requests —
handler checks pass and the first request's document passes the schema
validators — whose emails are equal after lowercasing, the first
registration succeeds (appending a document whose stored email is the
normalised — lowercased and trimmed — form, which is exactly the key the
existence lookup queries), and the second fails with the conflict
outcome at the existence check, before any save. -/
theorem register_case_insensitive_conflict
    (s : List User) (f1 e1 p1 f2 e2 p2 : String) (id1 t1 id2 t2 : Nat)
    (hf1 : f1 ≠ "") (he1 : e1 ≠ "") (hp1 : 6 ≤ p1.length)
    (hf2 : f2 ≠ "") (he2 : e2 ≠ "") (hp2 : 6 ≤ p2.length)
    (hval1 : validateVR (vrNewUser f1 e1 p1 id1 t1) = [])
    (hlow : jsToLower e1 = jsToLower e2)
    (hfresh : findUserByEmail s (jsToLower e1) = none) :
    (∃ view, (registerVR s ⟨some f1, some e1, some p1, some p1⟩ id1 t1).1 =
      .created view) ∧
    (registerVR s ⟨some f1, some e1, some p1, some p1⟩ id1 t1).2 =
      s ++ [vrNewUser f1 e1 p1 id1 t1] ∧
    (vrNewUser f1 e1 p1 id1 t1).email = normEmail (jsToLower e1) ∧
    (registerVR (s ++ [vrNewUser f1 e1 p1 id1 t1])
        ⟨some f2, some e2, some p2, some p2⟩ id2 t2).1 =
      .conflictError "User already exists with this email" := by
  have hrun1 := registerVR_success_run s f1 e1 p1 id1 t1 hf1 he1 hp1 hval1 hfresh
  have hp2ne : p2 ≠ "" := ne_empty_of_six_le_length hp2
  have hfind2 : findUserByEmail (s ++ [vrNewUser f1 e1 p1 id1 t1]) (jsToLower e2) =
      some (vrNewUser f1 e1 p1 id1 t1) := by
    unfold findUserByEmail
    rw [List.find?_append]
    have hnone : s.find? (fun u => u.email == normEmail (jsToLower e2)) = none := by
      rw [← hlow]
      exact hfresh
    rw [hnone]
    simp [List.find?, vrNewUser_email, hlow]
  refine ⟨⟨_, by rw [hrun1]⟩, by rw [hrun1], vrNewUser_email f1 e1 p1 id1 t1, ?_⟩
  unfold registerVR registerVR2
  rw [if_neg (by simp [falsy_some hf2, falsy_some he2, falsy_some hp2ne])]
  rw [if_neg (by simp)]
  rw [if_neg (by simp only [Option.getD_some]; omega)]
  simp only [Option.getD_some]
  simp only [hfind2]

theorem register_case_insensitive_conflict_witness :
    (∃ view, (registerVR [] ⟨some "Ann", some "A@B.com", some "secret1", some "secret1"⟩ 1 10).1 =
      .created view) ∧
    (registerVR [] ⟨some "Ann", some "A@B.com", some "secret1", some "secret1"⟩ 1 10).2 =
      [] ++ [vrNewUser "Ann" "A@B.com" "secret1" 1 10] ∧
    (vrNewUser "Ann" "A@B.com" "secret1" 1 10).email = normEmail (jsToLower "A@B.com") ∧
    (registerVR ([] ++ [vrNewUser "Ann" "A@B.com" "secret1" 1 10])
        ⟨some "Bob", some "a@b.com", some "secret2", some "secret2"⟩ 2 11).1 =
      .conflictError "User already exists with this email" :=
  register_case_insensitive_conflict [] "Ann" "A@B.com" "secret1" "Bob" "a@b.com" "secret2"
    1 10 2 11 (by decide) (by decide) (by decide) (by decide) (by decide) (by decide)
    (by decide) (by decide) (by decide)

/-- Claim C2: every registration request with a missing or empty field,
mismatched passwords, or a password shorter than 6 characters fails with
a validation outcome and leaves the store unchanged. -/
theorem registerVR_validation (s : List User) (req : RegisterRequest)
    (newId now : Nat)
    (h : falsy req.fullName = true ∨ falsy req.email = true ∨
         falsy req.password = true ∨ falsy req.confirmPassword = true ∨
         req.password.getD "" ≠ req.confirmPassword.getD "" ∨
         (req.password.getD "").length < 6) :
    ∃ msg, registerVR s req newId now = (.validationError msg, s) := by
  unfold registerVR registerVR2
  by_cases h1 : (falsy req.fullName || falsy req.email || falsy req.password ||
      falsy req.confirmPassword) = true
  · rw [if_pos h1]; exact ⟨_, rfl⟩
  · rw [if_neg h1]
    by_cases h2 : req.password.getD "" ≠ req.confirmPassword.getD ""
    · rw [if_pos h2]; exact ⟨_, rfl⟩
    · rw [if_neg h2]
      by_cases h3 : (req.password.getD "").length < 6
      · rw [if_pos h3]; exact ⟨_, rfl⟩
      · exfalso
        simp only [Bool.or_eq_true, not_or, Bool.not_eq_true] at h1
        push_neg at h2
        rcases h with h | h | h | h | h | h <;> simp_all
        omega

theorem registerVR_validation_witness :
    ∃ msg, registerVR [] ⟨some "Ann", some "a@b.com", some "abc", some "abc"⟩ 1 0 =
      (.validationError msg, []) :=
  registerVR_validation [] ⟨some "Ann", some "a@b.com", some "abc", some "abc"⟩ 1 0
    (by right; right; right; right; right; decide)

/-- Claim C3: a login with an unknown email and a login with a known
email but wrong password both fail with the identical message
"Invalid email or password" and the identical 401 status, so the two
failure causes are indistinguishable from the response. -/
theorem login_enumeration_resistant
    (s : List User) (e1 p1 e2 p2 : String) (t1 t2 : Nat) (u : User)
    (he1 : e1 ≠ "") (hp1 : p1 ≠ "") (he2 : e2 ≠ "") (hp2 : p2 ≠ "")
    (h1 : findUserByEmail s (jsToLower e1) = none)
    (h2 : findUserByEmail s (jsToLower e2) = some u)
    (hw : u.password ≠ p2) :
    loginVR s ⟨some e1, some p1⟩ t1 = (.authError "Invalid email or password", s) ∧
    loginVR s ⟨some e2, some p2⟩ t2 = (.authError "Invalid email or password", s) ∧
    loginStatus (loginVR s ⟨some e1, some p1⟩ t1).1 =
      loginStatus (loginVR s ⟨some e2, some p2⟩ t2).1 ∧
    loginStatus (loginVR s ⟨some e1, some p1⟩ t1).1 = 401 := by
  have hrun1 : loginVR s ⟨some e1, some p1⟩ t1 =
      (.authError "Invalid email or password", s) := by
    unfold loginVR
    rw [if_neg (by simp [falsy_some he1, falsy_some hp1])]
    simp only [Option.getD_some]
    simp only [h1]
  have hrun2 : loginVR s ⟨some e2, some p2⟩ t2 =
      (.authError "Invalid email or password", s) := by
    unfold loginVR
    rw [if_neg (by simp [falsy_some he2, falsy_some hp2])]
    simp only [Option.getD_some]
    simp only [h2]
    rw [if_pos hw]
  exact ⟨hrun1, hrun2, by rw [hrun1, hrun2], by rw [hrun1]; rfl⟩

theorem login_enumeration_resistant_witness :
    loginVR [⟨0, "Ann", "a@b.com", "secret1", 3, none⟩] ⟨some "x@y.com", some "whatever"⟩ 7 =
      (.authError "Invalid email or password", [⟨0, "Ann", "a@b.com", "secret1", 3, none⟩]) ∧
    loginVR [⟨0, "Ann", "a@b.com", "secret1", 3, none⟩] ⟨some "a@b.com", some "wrongpw"⟩ 8 =
      (.authError "Invalid email or password", [⟨0, "Ann", "a@b.com", "secret1", 3, none⟩]) ∧
    loginStatus (loginVR [⟨0, "Ann", "a@b.com", "secret1", 3, none⟩]
        ⟨some "x@y.com", some "whatever"⟩ 7).1 =
      loginStatus (loginVR [⟨0, "Ann", "a@b.com", "secret1", 3, none⟩]
        ⟨some "a@b.com", some "wrongpw"⟩ 8).1 ∧
    loginStatus (loginVR [⟨0, "Ann", "a@b.com", "secret1", 3, none⟩]
        ⟨some "x@y.com", some "whatever"⟩ 7).1 = 401 :=
  login_enumeration_resistant [⟨0, "Ann", "a@b.com", "secret1", 3, none⟩]
    "x@y.com" "whatever" "a@b.com" "wrongpw" 7 8 ⟨0, "Ann", "a@b.com", "secret1", 3, none⟩
    (by decide) (by decide) (by decide) (by decide) (by decide) (by decide) (by decide)

/-- Claim C4: a successful login performs exactly the one write that sets
the matched account's `lastLogin` to the current time, that time is at
least the account's `createdAt` (the clock does not run backwards), and
the returned view carries no password field. -/
theorem loginVR_success_spec (s : List User) (e p : String) (now : Nat) (u : User)
    (he : e ≠ "") (hp : p ≠ "")
    (hfind : findUserByEmail s (jsToLower e) = some u)
    (hpw : u.password = p)
    (hclock : u.createdAt ≤ now) :
    loginVR s ⟨some e, some p⟩ now =
      (.success [("id", toString u.id), ("fullName", u.fullName),
                 ("email", u.email), ("lastLogin", toString now)],
       s.map (fun v => if v.id == u.id then { u with lastLogin := some now } else v)) ∧
    ({ u with lastLogin := some now } : User).lastLogin = some now ∧
    u.createdAt ≤ now ∧
    "password" ∉ ([("id", toString u.id), ("fullName", u.fullName),
                   ("email", u.email), ("lastLogin", toString now)].map Prod.fst) := by
  refine ⟨?_, rfl, hclock, by simp⟩
  unfold loginVR
  rw [if_neg (by simp [falsy_some he, falsy_some hp])]
  simp only [Option.getD_some]
  simp only [hfind]
  rw [if_neg (by simp [hpw])]

theorem loginVR_success_spec_witness :
    loginVR [⟨0, "Ann", "a@b.com", "secret1", 3, none⟩] ⟨some "a@b.com", some "secret1"⟩ 7 =
      (.success [("id", toString (0 : Nat)), ("fullName", "Ann"),
                 ("email", "a@b.com"), ("lastLogin", toString (7 : Nat))],
       ([⟨0, "Ann", "a@b.com", "secret1", 3, none⟩] : List User).map
         (fun v => if v.id == 0 then ⟨0, "Ann", "a@b.com", "secret1", 3, some 7⟩ else v)) ∧
    (⟨0, "Ann", "a@b.com", "secret1", 3, some 7⟩ : User).lastLogin = some 7 ∧
    (⟨0, "Ann", "a@b.com", "secret1", 3, none⟩ : User).createdAt ≤ 7 ∧
    "password" ∉ ([("id", toString (0 : Nat)), ("fullName", "Ann"),
                   ("email", "a@b.com"), ("lastLogin", toString (7 : Nat))].map Prod.fst) :=
  loginVR_success_spec [⟨0, "Ann", "a@b.com", "secret1", 3, none⟩] "a@b.com" "secret1" 7
    ⟨0, "Ann", "a@b.com", "secret1", 3, none⟩
    (by decide) (by decide) (by decide) (by decide) (by decide)

/-- Claim C5: when the pre-insertion existence check passed on its
snapshot, the document passes the schema validators (a duplicate-key
error can only arise from `save()` after validation), and the
insertion-time snapshot already holds the unique email key (a concurrent
duplicate), registration fails with the conflict outcome mapped to
status 400, not a generic store error — the pre-check is not the sole
guard. -/
theorem registerVR2_insert_race_conflict
    (sCheck sInsert : List User) (f e p : String) (newId now : Nat)
    (hf : f ≠ "") (he : e ≠ "") (hp : 6 ≤ p.length)
    (hval : validateVR (vrNewUser f e p newId now) = [])
    (hpre : findUserByEmail sCheck (jsToLower e) = none)
    (hdup : sInsert.any (fun v => v.email == (vrNewUser f e p newId now).email) = true) :
    registerVR2 sCheck sInsert ⟨some f, some e, some p, some p⟩ newId now =
      (.conflictError "Email already registered", sInsert) ∧
    regStatus (registerVR2 sCheck sInsert ⟨some f, some e, some p, some p⟩ newId now).1 = 400 := by
  have hpne : p ≠ "" := ne_empty_of_six_le_length hp
  have hrun : registerVR2 sCheck sInsert ⟨some f, some e, some p, some p⟩ newId now =
      (.conflictError "Email already registered", sInsert) := by
    unfold registerVR2
    rw [if_neg (by simp [falsy_some hf, falsy_some he, falsy_some hpne])]
    rw [if_neg (by simp)]
    rw [if_neg (by simp only [Option.getD_some]; omega)]
    simp only [Option.getD_some]
    simp only [hpre]
    unfold saveNew
    rw [if_neg (by simp [hval])]
    rw [if_pos hdup]
  exact ⟨hrun, by rw [hrun]; rfl⟩

theorem registerVR2_insert_race_conflict_witness :
    registerVR2 [] [vrNewUser "Ann" "a@b.com" "secret1" 1 10]
        ⟨some "Bob", some "a@b.com", some "secret2", some "secret2"⟩ 2 11 =
      (.conflictError "Email already registered", [vrNewUser "Ann" "a@b.com" "secret1" 1 10]) ∧
    regStatus (registerVR2 [] [vrNewUser "Ann" "a@b.com" "secret1" 1 10]
        ⟨some "Bob", some "a@b.com", some "secret2", some "secret2"⟩ 2 11).1 = 400 :=
  registerVR2_insert_race_conflict [] [vrNewUser "Ann" "a@b.com" "secret1" 1 10]
    "Bob" "a@b.com" "secret2" 2 11 (by decide) (by decide) (by decide) (by decide)
    rfl (by decide)

/-- Claim C6 fails on the code: at one concrete store and request, the
two implementations return different resulting states (only
`videoRoutes.js` writes `lastLogin`), different register states (only
`videoRoutes.js` normalises the stored email) and different login views
(only `videoRoutes.js` includes `lastLogin`). -/
theorem srv_vr_not_equivalent :
    (loginVR [⟨0, "Ann", "a@b.com", "secret1", 3, none⟩]
        ⟨some "a@b.com", some "secret1"⟩ 7).2 ≠
      (loginSrv [⟨0, "Ann", "a@b.com", "secret1", 3, none⟩]
        ⟨some "a@b.com", some "secret1"⟩).2 ∧
    (registerVR [] ⟨some "Ann", some "A@B.com", some "secret1", some "secret1"⟩ 1 10).2 ≠
      (registerSrv [] ⟨some "Ann", some "A@B.com", some "secret1", some "secret1"⟩ 1 10).2 ∧
    (loginVR [⟨0, "Ann", "a@b.com", "secret1", 3, none⟩]
        ⟨some "a@b.com", some "secret1"⟩ 7).1 ≠
      (loginSrv [⟨0, "Ann", "a@b.com", "secret1", 3, none⟩]
        ⟨some "a@b.com", some "secret1"⟩).1 := by
  refine ⟨by decide, by decide, by decide⟩

/-- Claim C6 as amended: for requests whose email is already in normal
form (lowercased and trimmed) and whose built document also satisfies
the stricter `videoRoutes.js` schema validators (name of length at least
2 after trimming, email of `local@domain.tld` shape), the two
entry-point implementations agree on the kind of the outcome (validation
failure / conflict / created, and validation failure / authentication
failure / success) for registration and login; they still differ in
stored-field normalisation, the `lastLogin` write and the returned
views, and without the validator condition the register kinds can
disagree (`videoRoutes.js` 400 versus `server.js` 201). -/
theorem srv_vr_agree_on_outcome_kinds
    (s : List User) (req : RegisterRequest) (lreq : LoginRequest)
    (newId now t : Nat)
    (hre : jsToLower (req.email.getD "") = req.email.getD "")
    (hrt : jsTrim (req.email.getD "") = req.email.getD "")
    (hrv : validateVR (vrNewUser (req.fullName.getD "") (req.email.getD "")
      (req.password.getD "") newId now) = [])
    (hle : jsToLower (lreq.email.getD "") = lreq.email.getD "")
    (hlt : jsTrim (lreq.email.getD "") = lreq.email.getD "") :
    regKind (registerVR s req newId now).1 = regKind (registerSrv s req newId now).1 ∧
    loginKind (loginVR s lreq t).1 = loginKind (loginSrv s lreq).1 := by
  have hnormR : normEmail (jsToLower (req.email.getD "")) = req.email.getD "" := by
    unfold normEmail
    rw [hre, hrt, hre]
  have hnormL : normEmail (jsToLower (lreq.email.getD "")) = lreq.email.getD "" := by
    unfold normEmail
    rw [hle, hlt, hle]
  have hfindR : findUserByEmail s (jsToLower (req.email.getD "")) =
      findUserByEmailRaw s (req.email.getD "") := by
    unfold findUserByEmail findUserByEmailRaw
    rw [hnormR]
  have hfindL : findUserByEmail s (jsToLower (lreq.email.getD "")) =
      findUserByEmailRaw s (lreq.email.getD "") := by
    unfold findUserByEmail findUserByEmailRaw
    rw [hnormL]
  have hvrEmail : (vrNewUser (req.fullName.getD "") (req.email.getD "")
      (req.password.getD "") newId now).email = req.email.getD "" := by
    rw [vrNewUser_email, hnormR]
  constructor
  · unfold registerVR registerVR2 registerSrv
    by_cases h1 : (falsy req.fullName || falsy req.email || falsy req.password ||
        falsy req.confirmPassword) = true
    · rw [if_pos h1, if_pos h1]
    · rw [if_neg h1, if_neg h1]
      by_cases h2 : req.password.getD "" ≠ req.confirmPassword.getD ""
      · rw [if_pos h2, if_pos h2]
      · rw [if_neg h2, if_neg h2]
        by_cases h3 : (req.password.getD "").length < 6
        · rw [if_pos h3, if_pos h3]
        · rw [if_neg h3, if_neg h3]
          rw [hfindR]
          have hsrvval : validateSrv (srvNewUser (req.fullName.getD "")
              (req.email.getD "") (req.password.getD "") newId now) = [] := by
            simp only [Bool.or_eq_true, not_or] at h1
            obtain ⟨⟨⟨hfn, hem⟩, hpw⟩, hcp⟩ := h1
            simp [validateSrv, srvNewUser, getD_ne_empty_of_not_falsy hfn,
              getD_ne_empty_of_not_falsy hem, getD_ne_empty_of_not_falsy hpw]
          cases hcase : findUserByEmailRaw s (req.email.getD "") with
          | some u => simp only [hcase]
          | none =>
            simp only [hcase]
            unfold saveNew saveNewSrv
            rw [hrv, hsrvval]
            rw [if_neg (by simp : ¬ (([] : List String) ≠ []))]
            rw [if_neg (by simp : ¬ (([] : List String) ≠ []))]
            simp only [hvrEmail, srvNewUser_email]
            by_cases h4 : (s.any fun v => v.email == req.email.getD "") = true
            · rw [if_pos h4, if_pos h4]
            · rw [if_neg h4, if_neg h4]
              rfl
  · unfold loginVR loginSrv
    by_cases h1 : (falsy lreq.email || falsy lreq.password) = true
    · rw [if_pos h1, if_pos h1]
    · rw [if_neg h1, if_neg h1]
      rw [hfindL]
      cases hcase : findUserByEmailRaw s (lreq.email.getD "") with
      | none => simp only [hcase]
      | some u =>
        simp only [hcase]
        by_cases h2 : u.password ≠ lreq.password.getD ""
        · rw [if_pos h2, if_pos h2]
        · rw [if_neg h2, if_neg h2]
          rfl

theorem srv_vr_agree_on_outcome_kinds_witness :
    regKind (registerVR [] ⟨some "Ann", some "a@b.com", some "secret1", some "secret1"⟩ 1 10).1 =
      regKind (registerSrv [] ⟨some "Ann", some "a@b.com", some "secret1", some "secret1"⟩ 1 10).1 ∧
    loginKind (loginVR [] ⟨some "a@b.com", some "secret1"⟩ 7).1 =
      loginKind (loginSrv [] ⟨some "a@b.com", some "secret1"⟩).1 :=
  srv_vr_agree_on_outcome_kinds [] ⟨some "Ann", some "a@b.com", some "secret1", some "secret1"⟩
    ⟨some "a@b.com", some "secret1"⟩ 1 10 7 (by decide) (by decide) (by decide) (by decide)
    (by decide)

/-- Claim C7: the status-label derivation is total and pure: it yields
"connected" exactly for raw state 1; states 0, 2, 3 map to
"disconnected", "connecting", "disconnecting"; every other raw state maps
to "unknown" rather than erroring. -/
theorem getDBStatusText_spec (st : Int) :
    (getDBStatusText st = "connected" ↔ st = 1) ∧
    (st = 0 → getDBStatusText st = "disconnected") ∧
    (st = 2 → getDBStatusText st = "connecting") ∧
    (st = 3 → getDBStatusText st = "disconnecting") ∧
    (st ≠ 0 → st ≠ 1 → st ≠ 2 → st ≠ 3 → getDBStatusText st = "unknown") := by
  unfold getDBStatusText
  by_cases h0 : st = 0 <;> by_cases h1 : st = 1 <;> by_cases h2 : st = 2 <;>
    by_cases h3 : st = 3 <;> simp_all

theorem getDBStatusText_spec_witness :
    getDBStatusText 0 = "disconnected" ∧ getDBStatusText 5 = "unknown" :=
  ⟨(getDBStatusText_spec 0).2.1 rfl,
   (getDBStatusText_spec 5).2.2.2.2 (by decide) (by decide) (by decide) (by decide)⟩

/-- Claim C8: `GET /video` returns the document with the maximum
identifier: on the empty store the result is absence (`none`), any
returned document is a stored one whose id bounds all stored ids (and is
the unique maximum when ids are distinct), and on the two-element example
the record with id 2 is returned. -/
theorem findLatest_spec :
    findLatest ([] : List Video) = none ∧
    (∀ s : List Video, ∀ w, findLatest s = some w →
      w ∈ s ∧ ∀ v ∈ s, v.id ≤ w.id) ∧
    (∀ s : List Video, s ≠ [] → (findLatest s).isSome) ∧
    (∀ s : List Video, ∀ w, (s.map Video.id).Nodup → findLatest s = some w →
      ∀ v ∈ s, v ≠ w → v.id < w.id) ∧
    findLatest [⟨1, "a", "u"⟩, ⟨2, "b", "v"⟩] = some ⟨2, "b", "v"⟩ := by
  have main : ∀ s : List Video, ∀ w, findLatest s = some w →
      w ∈ s ∧ ∀ v ∈ s, v.id ≤ w.id := by
    intro s w h
    obtain ⟨h1, h2, _⟩ := foldl_pickLater s none w h
    refine ⟨?_, h2⟩
    rcases h1 with h1 | h1
    · cases h1
    · exact h1
  refine ⟨rfl, main, ?_, ?_, by decide⟩
  · intro s hs
    cases s with
    | nil => exact absurd rfl hs
    | cons x t =>
      show (t.foldl pickLater (pickLater none x)).isSome
      exact foldl_pickLater_isSome t x
  · intro s w hnodup h v hv hne
    obtain ⟨hw, hle⟩ := main s w h
    have hne' : v.id ≠ w.id := fun hid =>
      hne (List.inj_on_of_nodup_map hnodup hv hw hid)
    have := hle v hv
    omega

theorem findLatest_spec_witness :
    (⟨2, "b", "v"⟩ : Video) ∈ ([⟨1, "a", "u"⟩, ⟨2, "b", "v"⟩] : List Video) ∧
    ∀ v ∈ ([⟨1, "a", "u"⟩, ⟨2, "b", "v"⟩] : List Video),
      v.id ≤ (⟨2, "b", "v"⟩ : Video).id :=
  findLatest_spec.2.1 [⟨1, "a", "u"⟩, ⟨2, "b", "v"⟩] ⟨2, "b", "v"⟩ (by decide)

/-- Claim C9: whenever the connection state is not the connected value,
the gating middleware rejects every non-GET request with the 503
response, while GET requests always fall through to their handler. -/
theorem dbStatusMiddleware_spec (st : Int) (method : String) :
    (st ≠ 1 → method ≠ "GET" →
      dbStatusMiddleware st method =
        .reject503 "Database temporarily unavailable. Please try again.") ∧
    (method = "GET" → dbStatusMiddleware st method = .pass) ∧
    (st = 1 → dbStatusMiddleware st method = .pass) := by
  unfold dbStatusMiddleware
  refine ⟨fun hs hm => ?_, fun hm => ?_, fun hs => ?_⟩
  · rw [if_pos hs, if_pos hm]
  · subst hm
    by_cases hs : st = 1
    · rw [if_neg (by simp [hs])]
    · rw [if_pos hs, if_neg (by simp)]
  · rw [if_neg (by simp [hs])]

theorem dbStatusMiddleware_spec_witness :
    dbStatusMiddleware 0 "POST" =
      .reject503 "Database temporarily unavailable. Please try again." ∧
    dbStatusMiddleware 0 "GET" = .pass :=
  ⟨(dbStatusMiddleware_spec 0 "POST").1 (by decide) (by decide),
   (dbStatusMiddleware_spec 0 "GET").2.1 rfl⟩

/-- Claim C10: the write-back of a successful login preserves every field
other than `lastLogin` of every stored account — the projections to
(id, fullName, email, password, createdAt) before and after coincide. -/
theorem loginVR_frame (s : List User) (e p : String) (now : Nat) (u : User)
    (he : e ≠ "") (hp : p ≠ "")
    (hfind : findUserByEmail s (jsToLower e) = some u)
    (hpw : u.password = p)
    (hnodup : (s.map User.id).Nodup) :
    (loginVR s ⟨some e, some p⟩ now).2.map
        (fun v => (v.id, v.fullName, v.email, v.password, v.createdAt)) =
      s.map (fun v => (v.id, v.fullName, v.email, v.password, v.createdAt)) := by
  have hu : u ∈ s := List.mem_of_find?_eq_some hfind
  have hrun : (loginVR s ⟨some e, some p⟩ now).2 =
      s.map (fun v => if v.id == u.id then { u with lastLogin := some now } else v) := by
    unfold loginVR
    rw [if_neg (by simp [falsy_some he, falsy_some hp])]
    simp only [Option.getD_some]
    simp only [hfind]
    rw [if_neg (by simp [hpw])]
  rw [hrun, List.map_map]
  apply List.map_congr_left
  intro v hv
  by_cases hid : v.id = u.id
  · have hvu : v = u := List.inj_on_of_nodup_map hnodup hv hu hid
    subst hvu
    simp
  · simp [Function.comp, hid]

theorem loginVR_frame_witness :
    (loginVR [⟨0, "Ann", "a@b.com", "secret1", 3, none⟩] ⟨some "a@b.com", some "secret1"⟩ 7).2.map
        (fun v => (v.id, v.fullName, v.email, v.password, v.createdAt)) =
      ([⟨0, "Ann", "a@b.com", "secret1", 3, none⟩] : List User).map
        (fun v => (v.id, v.fullName, v.email, v.password, v.createdAt)) :=
  loginVR_frame [⟨0, "Ann", "a@b.com", "secret1", 3, none⟩] "a@b.com" "secret1" 7
    ⟨0, "Ann", "a@b.com", "secret1", 3, none⟩
    (by decide) (by decide) (by decide) (by decide) (by decide)

end ESiksha
